import Mathlib

/-!
Shallow embedding of the geiger_counter_gps firmware (two variants:
Profile A = `src/unnamed/part_000`, coefficient 0.0027 / GPS baud 4800;
Profile B = `src/arduino/geiger_V26_LGT8F328P.ino`, coefficient 0.00347 /
GPS baud 9600) together with proofs about the embedded definitions.

Machine integers (`unsigned long` on the AVR targets is 32 bits wide) are
modelled as `Nat` with explicit reduction modulo `2 ^ 32`; the Arduino
`float` quantities that feed the record formatter are modelled as `ℚ`.
-/

namespace Geiger

/-- Modulus of the 32-bit `unsigned long` arithmetic used by `millis()`,
`micros()`, `counts` and the elapsed-time subtractions. -/
def UINT32_MOD : Nat := 2 ^ 32

/-- C-style unsigned 32-bit subtraction `a - b` (wrapping modulo `2 ^ 32`),
as performed by `currentMillis - previousMillis` and
`t - lastInterruptTime` in the source. -/
def sub32 (a b : Nat) : Nat :=
  (a % UINT32_MOD + (UINT32_MOD - b % UINT32_MOD)) % UINT32_MOD

/-- `#define LOG_PERIOD 15000` (both profiles). -/
def LOG_PERIOD : Nat := 15000

/-- The guard of the logging cycle: `currentMillis - previousMillis > LOG_PERIOD`
(unsigned 32-bit subtraction, strict comparison). -/
def shouldLog (currentMillis previousMillis : Nat) : Bool :=
  sub32 currentMillis previousMillis > LOG_PERIOD

/-- The guard of the interrupt handler `impulse`:
`t - lastInterruptTime > 150` (unsigned 32-bit subtraction, strict). -/
def debounceAccept (lastInterruptTime t : Nat) : Bool :=
  sub32 t lastInterruptTime > 150

/-- State shared with the `impulse` interrupt handler:
`volatile unsigned long counts` and `volatile unsigned long lastInterruptTime`. -/
structure DebounceState where
  counts : Nat
  lastInterruptTime : Nat

/-- The interrupt handler `impulse()` (identical in both profiles):
read `t = micros()` (a reading below `2 ^ 32`); if
`t - lastInterruptTime > 150` then increment `counts` and set
`lastInterruptTime = t`, else leave the state unchanged. -/
def impulse (s : DebounceState) (t : Nat) : DebounceState :=
  if debounceAccept s.lastInterruptTime t then
    { counts := (s.counts + 1) % UINT32_MOD,
      lastInterruptTime := t }
  else s

/-- Run `impulse` over a sequence of falling-edge timestamps. -/
def runPulses (s : DebounceState) : List Nat → DebounceState
  | [] => s
  | t :: ts => runPulses (impulse s t) ts

/-- Startup state: `counts = 0` (set in `setup()`), `lastInterruptTime = 0`
(static initialisation). -/
def initDebounce : DebounceState := { counts := 0, lastInterruptTime := 0 }

/-- `unsigned long cpm = counts * (60000 / LOG_PERIOD);` — the parenthesised
division is C integer division, and the product wraps modulo `2 ^ 32`. -/
def cpm (counts : Nat) : Nat := counts * (60000 / LOG_PERIOD) % UINT32_MOD

theorem sub32_lt (a b : Nat) : sub32 a b < UINT32_MOD := by
  have h : 0 < UINT32_MOD := by norm_num [UINT32_MOD]
  exact Nat.mod_lt _ h

/-- Unsigned wraparound subtraction recovers the true elapsed time: if the
later reading is `(prev + e) % 2^32` for a true separation `e < 2^32`,
then `sub32` returns exactly `e`. -/
theorem sub32_elapsed (prev e : Nat) (he : e < UINT32_MOD) :
    sub32 ((prev + e) % UINT32_MOD) prev = e := by
  unfold sub32 UINT32_MOD at *
  omega

/-- C2: the interrupt handler increments the pulse count exactly when the
elapsed time since the last accepted pulse exceeds 150 µs, and discards the
pulse otherwise; two pulses 100 µs apart are counted once, two pulses
200 µs apart are counted twice. -/
theorem claim_C2_debounce (s : DebounceState) (e t0 : Nat)
    (he : e < UINT32_MOD) (h0 : 150 < t0) (h1 : t0 + 200 < UINT32_MOD) :
    ((impulse s ((s.lastInterruptTime + e) % UINT32_MOD)).counts
        = (s.counts + 1) % UINT32_MOD ↔ 150 < e)
    ∧ (¬ 150 < e → impulse s ((s.lastInterruptTime + e) % UINT32_MOD) = s)
    ∧ (runPulses initDebounce [t0, t0 + 100]).counts = 1
    ∧ (runPulses initDebounce [t0, t0 + 200]).counts = 2 := by
  have hs : sub32 ((s.lastInterruptTime + e) % UINT32_MOD) s.lastInterruptTime = e :=
    sub32_elapsed _ e he
  have e1 : impulse initDebounce t0 = ⟨1, t0⟩ := by
    have ht : sub32 t0 0 = t0 := by unfold sub32 UINT32_MOD at *; omega
    unfold impulse debounceAccept initDebounce
    simp only [ht]
    rw [if_pos (by simpa using h0)]
    norm_num [UINT32_MOD]
  have e2 : impulse ⟨1, t0⟩ (t0 + 100) = ⟨1, t0⟩ := by
    have ht : sub32 (t0 + 100) t0 = 100 := by unfold sub32 UINT32_MOD at *; omega
    unfold impulse debounceAccept
    simp only [ht]
    norm_num
  have e3 : impulse ⟨1, t0⟩ (t0 + 200) = ⟨2, t0 + 200⟩ := by
    have ht : sub32 (t0 + 200) t0 = 200 := by unfold sub32 UINT32_MOD at *; omega
    unfold impulse debounceAccept
    simp only [ht]
    rw [if_pos (by norm_num)]
    norm_num [UINT32_MOD]
  refine ⟨?_, ?_, ?_, ?_⟩
  · unfold impulse debounceAccept
    simp only [hs]
    by_cases h : 150 < e
    · rw [if_pos (by simpa using h)]
      simpa using h
    · rw [if_neg (by simpa using h)]
      have hne : s.counts ≠ (s.counts + 1) % UINT32_MOD := by
        unfold UINT32_MOD; omega
      simpa [hne] using h
  · intro h
    unfold impulse debounceAccept
    simp only [hs]
    rw [if_neg (by simpa using h)]
  · simp [runPulses, e1, e2]
  · simp [runPulses, e1, e3]

/-- C2 witness: instantiated at concrete pulse trains starting at t = 1000 µs. -/
theorem claim_C2_debounce_witness :
    (runPulses initDebounce [1000, 1000 + 100]).counts = 1
    ∧ (runPulses initDebounce [1000, 1000 + 200]).counts = 2 := by
  have h := claim_C2_debounce initDebounce 200 1000
    (by norm_num [UINT32_MOD]) (by norm_num) (by norm_num [UINT32_MOD])
  exact ⟨h.2.2.1, h.2.2.2⟩

/-- C3: the computed CPM equals pulseCount × 4 exactly — `60000 / LOG_PERIOD`
is C integer division and equals exactly 4, and for any count reachable in
one 15 s interval (far below the `2 ^ 30` wraparound bound assumed here)
the 32-bit product does not wrap. -/
theorem claim_C3_cpm (c : Nat) (h : c < 2 ^ 30) :
    60000 / LOG_PERIOD = 4 ∧ cpm c = c * 4 := by
  refine ⟨by norm_num [LOG_PERIOD], ?_⟩
  unfold cpm LOG_PERIOD UINT32_MOD
  norm_num
  omega

/-- C3 witness: 37 accepted pulses in one interval yield cpm = 148. -/
theorem claim_C3_cpm_witness : cpm 37 = 148 := by
  rw [(claim_C3_cpm 37 (by norm_num)).2]

/-- C7: the logging cycle fires exactly when strictly more than 15000 ms have
elapsed since the previous logging interval; at exactly 15000 ms elapsed the
guard is false (no record is emitted). -/
theorem claim_C7_interval (prev e : Nat) (he : e < UINT32_MOD) :
    (shouldLog ((prev + e) % UINT32_MOD) prev = true ↔ 15000 < e)
    ∧ shouldLog ((prev + 15000) % UINT32_MOD) prev = false := by
  have hs := sub32_elapsed prev e he
  have hs2 := sub32_elapsed prev 15000 (by norm_num [UINT32_MOD])
  constructor
  · unfold shouldLog LOG_PERIOD
    simp only [hs]
    simp
  · unfold shouldLog LOG_PERIOD
    simp only [hs2]
    simp

/-- C7 witness: at 15001 ms elapsed the guard fires, at 15000 ms it does not. -/
theorem claim_C7_interval_witness :
    shouldLog ((0 + 15001) % UINT32_MOD) 0 = true
    ∧ shouldLog ((0 + 15000) % UINT32_MOD) 0 = false := by
  have h := claim_C7_interval 0 15001 (by norm_num [UINT32_MOD])
  exact ⟨h.1.mpr (by norm_num), h.2⟩

/-- C10: both elapsed-time checks use unsigned subtraction modulo `2 ^ 32`,
so for every pair of readings whose true separation is below `2 ^ 32` ticks
the comparison sees the correct elapsed time even across counter wraparound:
`sub32` recovers the separation exactly, and both guards (the 15000 ms
logging check and the 150 µs debounce check) decide the true elapsed time. -/
theorem claim_C10_wraparound (prev e : Nat) (he : e < UINT32_MOD) :
    sub32 ((prev + e) % UINT32_MOD) prev = e
    ∧ (shouldLog ((prev + e) % UINT32_MOD) prev = true ↔ LOG_PERIOD < e)
    ∧ (debounceAccept prev ((prev + e) % UINT32_MOD) = true ↔ 150 < e) := by
  have hs := sub32_elapsed prev e he
  refine ⟨hs, ?_, ?_⟩
  · unfold shouldLog
    simp only [hs]
    simp
  · unfold debounceAccept
    simp only [hs]
    simp

/-- C10 witness: a pair of `millis()`/`micros()` readings that straddle the
32-bit wraparound still yields the true elapsed time of 10000 ticks. -/
theorem claim_C10_wraparound_witness :
    sub32 ((4294966000 + 10000) % UINT32_MOD) 4294966000 = 10000
    ∧ debounceAccept 4294966000 ((4294966000 + 10000) % UINT32_MOD) = true := by
  have h := claim_C10_wraparound 4294966000 10000 (by norm_num [UINT32_MOD])
  exact ⟨h.1, h.2.2.mpr (by norm_num)⟩

/-- `#define NUM_SAMPLES 16` (both profiles). -/
def NUM_SAMPLES : Nat := 16

/-- The rolling-average state: `float samples[NUM_SAMPLES]`, `int sampleIndex`,
`float total_uSv`. The `float` dose values are modelled as `ℚ`. -/
structure SampleWindow where
  samples : List ℚ
  sampleIndex : Nat
  total_uSv : ℚ

/-- Startup state: the samples array is zero-initialised (C static storage),
`sampleIndex = 0`, `total_uSv = 0`. -/
def initWindow : SampleWindow :=
  { samples := List.replicate NUM_SAMPLES 0, sampleIndex := 0, total_uSv := 0 }

/-- One rolling-average update (both profiles, per logging cycle):
`total_uSv -= samples[sampleIndex]; samples[sampleIndex] = uSv;`
`total_uSv += samples[sampleIndex]; sampleIndex = (sampleIndex + 1) % NUM_SAMPLES;`. -/
def insertSample (w : SampleWindow) (uSv : ℚ) : SampleWindow :=
  let t1 := w.total_uSv - w.samples.getD w.sampleIndex 0
  let samples2 := w.samples.set w.sampleIndex uSv
  { samples := samples2
    sampleIndex := (w.sampleIndex + 1) % NUM_SAMPLES
    total_uSv := t1 + samples2.getD w.sampleIndex 0 }

/-- `float average_uSv = total_uSv / NUM_SAMPLES;` (both profiles). -/
def average_uSv (w : SampleWindow) : ℚ := w.total_uSv / (NUM_SAMPLES : ℚ)

/-- Run one rolling-average update per logging cycle over a list of doses. -/
def runWindow (w : SampleWindow) : List ℚ → SampleWindow
  | [] => w
  | d :: ds => runWindow (insertSample w d) ds

/-- The sample-window invariant: 16 stored slots, write index in range, and
the running sum equal to the sum of the stored samples. -/
def WindowInv (w : SampleWindow) : Prop :=
  w.samples.length = NUM_SAMPLES ∧ w.sampleIndex < NUM_SAMPLES
    ∧ w.total_uSv = w.samples.sum

theorem getD_set_self (l : List ℚ) (i : Nat) (a : ℚ) (h : i < l.length) :
    (l.set i a).getD i 0 = a := by
  induction l generalizing i with
  | nil => simp at h
  | cons x xs ih =>
    cases i with
    | zero => simp
    | succ n =>
      simp only [List.set, List.getD_cons_succ]
      exact ih n (by simpa using h)

theorem sum_set_getD (l : List ℚ) (i : Nat) (a : ℚ) (h : i < l.length) :
    (l.set i a).sum = l.sum - l.getD i 0 + a := by
  induction l generalizing i with
  | nil => simp at h
  | cons x xs ih =>
    cases i with
    | zero => simp [List.set]; ring
    | succ n =>
      simp only [List.set, List.sum_cons, List.getD_cons_succ]
      rw [ih n (by simpa using h)]
      ring

theorem windowInv_init : WindowInv initWindow := by
  refine ⟨by simp [initWindow], by norm_num [initWindow, NUM_SAMPLES], ?_⟩
  simp [initWindow]

theorem windowInv_insert (w : SampleWindow) (d : ℚ) (hw : WindowInv w) :
    WindowInv (insertSample w d) := by
  obtain ⟨hl, hi, ht⟩ := hw
  have hi' : w.sampleIndex < w.samples.length := by omega
  refine ⟨by simp [insertSample, hl], ?_, ?_⟩
  · have : 0 < NUM_SAMPLES := by norm_num [NUM_SAMPLES]
    simpa [insertSample] using Nat.mod_lt _ this
  · simp only [insertSample]
    rw [getD_set_self _ _ _ hi', sum_set_getD _ _ _ hi', ht]

theorem windowInv_run (ds : List ℚ) (w : SampleWindow) (hw : WindowInv w) :
    WindowInv (runWindow w ds) := by
  induction ds generalizing w with
  | nil => exact hw
  | cons d ds ih => exact ih _ (windowInv_insert w d hw)

/-- Proof-layer projection of the window state onto (samples, sampleIndex):
one update step, used to compute sample contents without carrying the
running-sum expression. -/
def stepSI (p : List ℚ × Nat) (d : ℚ) : List ℚ × Nat :=
  (p.1.set p.2 d, (p.2 + 1) % NUM_SAMPLES)

/-- Iterate `stepSI` over a list of doses. -/
def runSI (p : List ℚ × Nat) : List ℚ → List ℚ × Nat
  | [] => p
  | d :: ds => runSI (stepSI p d) ds

theorem runWindow_toSI (w : SampleWindow) (ds : List ℚ) :
    (runWindow w ds).samples = (runSI (w.samples, w.sampleIndex) ds).1
    ∧ (runWindow w ds).sampleIndex = (runSI (w.samples, w.sampleIndex) ds).2 := by
  induction ds generalizing w with
  | nil => exact ⟨rfl, rfl⟩
  | cons d ds ih =>
    have h := ih (insertSample w d)
    simpa [runWindow, runSI, stepSI, insertSample] using h

/-- C4: after every logging cycle the running sum equals the sum of the 16
stored samples and the reported average equals runningSum/16; after 16
insertions the average is the mean of d1..d16, and a 17th insertion evicts
d1 (overwriting its slot with d17), so the average covers strictly the most
recent 16 samples. -/
theorem claim_C4_sampleWindow (ds : List ℚ) (d1 d2 d3 d4 d5 d6 d7 d8 d9 d10 d11 d12 d13 d14 d15 d16 d17 : ℚ) :
    (runWindow initWindow ds).total_uSv = (runWindow initWindow ds).samples.sum
    ∧ average_uSv (runWindow initWindow ds) = (runWindow initWindow ds).samples.sum / 16
    ∧ average_uSv (runWindow initWindow [d1, d2, d3, d4, d5, d6, d7, d8, d9, d10, d11, d12, d13, d14, d15, d16])
        = (d1 + d2 + d3 + d4 + d5 + d6 + d7 + d8 + d9 + d10 + d11 + d12 + d13 + d14 + d15 + d16) / 16
    ∧ (runWindow initWindow [d1, d2, d3, d4, d5, d6, d7, d8, d9, d10, d11, d12, d13, d14, d15, d16, d17]).samples
        = [d17, d2, d3, d4, d5, d6, d7, d8, d9, d10, d11, d12, d13, d14, d15, d16]
    ∧ average_uSv (runWindow initWindow [d1, d2, d3, d4, d5, d6, d7, d8, d9, d10, d11, d12, d13, d14, d15, d16, d17])
        = (d2 + d3 + d4 + d5 + d6 + d7 + d8 + d9 + d10 + d11 + d12 + d13 + d14 + d15 + d16 + d17) / 16 := by
  have hInit : (initWindow.samples, initWindow.sampleIndex)
      = (([0, 0, 0, 0, 0, 0, 0, 0, 0, 0, 0, 0, 0, 0, 0, 0] : List ℚ), 0) := by
    norm_num [initWindow, NUM_SAMPLES, List.replicate_succ]
  have s1 : stepSI (([0, 0, 0, 0, 0, 0, 0, 0, 0, 0, 0, 0, 0, 0, 0, 0] : List ℚ), 0) d1
      = ([d1, 0, 0, 0, 0, 0, 0, 0, 0, 0, 0, 0, 0, 0, 0, 0], 1) := by
    norm_num [stepSI, NUM_SAMPLES, List.set]
  have s2 : stepSI (([d1, 0, 0, 0, 0, 0, 0, 0, 0, 0, 0, 0, 0, 0, 0, 0] : List ℚ), 1) d2
      = ([d1, d2, 0, 0, 0, 0, 0, 0, 0, 0, 0, 0, 0, 0, 0, 0], 2) := by
    norm_num [stepSI, NUM_SAMPLES, List.set]
  have s3 : stepSI (([d1, d2, 0, 0, 0, 0, 0, 0, 0, 0, 0, 0, 0, 0, 0, 0] : List ℚ), 2) d3
      = ([d1, d2, d3, 0, 0, 0, 0, 0, 0, 0, 0, 0, 0, 0, 0, 0], 3) := by
    norm_num [stepSI, NUM_SAMPLES, List.set]
  have s4 : stepSI (([d1, d2, d3, 0, 0, 0, 0, 0, 0, 0, 0, 0, 0, 0, 0, 0] : List ℚ), 3) d4
      = ([d1, d2, d3, d4, 0, 0, 0, 0, 0, 0, 0, 0, 0, 0, 0, 0], 4) := by
    norm_num [stepSI, NUM_SAMPLES, List.set]
  have s5 : stepSI (([d1, d2, d3, d4, 0, 0, 0, 0, 0, 0, 0, 0, 0, 0, 0, 0] : List ℚ), 4) d5
      = ([d1, d2, d3, d4, d5, 0, 0, 0, 0, 0, 0, 0, 0, 0, 0, 0], 5) := by
    norm_num [stepSI, NUM_SAMPLES, List.set]
  have s6 : stepSI (([d1, d2, d3, d4, d5, 0, 0, 0, 0, 0, 0, 0, 0, 0, 0, 0] : List ℚ), 5) d6
      = ([d1, d2, d3, d4, d5, d6, 0, 0, 0, 0, 0, 0, 0, 0, 0, 0], 6) := by
    norm_num [stepSI, NUM_SAMPLES, List.set]
  have s7 : stepSI (([d1, d2, d3, d4, d5, d6, 0, 0, 0, 0, 0, 0, 0, 0, 0, 0] : List ℚ), 6) d7
      = ([d1, d2, d3, d4, d5, d6, d7, 0, 0, 0, 0, 0, 0, 0, 0, 0], 7) := by
    norm_num [stepSI, NUM_SAMPLES, List.set]
  have s8 : stepSI (([d1, d2, d3, d4, d5, d6, d7, 0, 0, 0, 0, 0, 0, 0, 0, 0] : List ℚ), 7) d8
      = ([d1, d2, d3, d4, d5, d6, d7, d8, 0, 0, 0, 0, 0, 0, 0, 0], 8) := by
    norm_num [stepSI, NUM_SAMPLES, List.set]
  have s9 : stepSI (([d1, d2, d3, d4, d5, d6, d7, d8, 0, 0, 0, 0, 0, 0, 0, 0] : List ℚ), 8) d9
      = ([d1, d2, d3, d4, d5, d6, d7, d8, d9, 0, 0, 0, 0, 0, 0, 0], 9) := by
    norm_num [stepSI, NUM_SAMPLES, List.set]
  have s10 : stepSI (([d1, d2, d3, d4, d5, d6, d7, d8, d9, 0, 0, 0, 0, 0, 0, 0] : List ℚ), 9) d10
      = ([d1, d2, d3, d4, d5, d6, d7, d8, d9, d10, 0, 0, 0, 0, 0, 0], 10) := by
    norm_num [stepSI, NUM_SAMPLES, List.set]
  have s11 : stepSI (([d1, d2, d3, d4, d5, d6, d7, d8, d9, d10, 0, 0, 0, 0, 0, 0] : List ℚ), 10) d11
      = ([d1, d2, d3, d4, d5, d6, d7, d8, d9, d10, d11, 0, 0, 0, 0, 0], 11) := by
    norm_num [stepSI, NUM_SAMPLES, List.set]
  have s12 : stepSI (([d1, d2, d3, d4, d5, d6, d7, d8, d9, d10, d11, 0, 0, 0, 0, 0] : List ℚ), 11) d12
      = ([d1, d2, d3, d4, d5, d6, d7, d8, d9, d10, d11, d12, 0, 0, 0, 0], 12) := by
    norm_num [stepSI, NUM_SAMPLES, List.set]
  have s13 : stepSI (([d1, d2, d3, d4, d5, d6, d7, d8, d9, d10, d11, d12, 0, 0, 0, 0] : List ℚ), 12) d13
      = ([d1, d2, d3, d4, d5, d6, d7, d8, d9, d10, d11, d12, d13, 0, 0, 0], 13) := by
    norm_num [stepSI, NUM_SAMPLES, List.set]
  have s14 : stepSI (([d1, d2, d3, d4, d5, d6, d7, d8, d9, d10, d11, d12, d13, 0, 0, 0] : List ℚ), 13) d14
      = ([d1, d2, d3, d4, d5, d6, d7, d8, d9, d10, d11, d12, d13, d14, 0, 0], 14) := by
    norm_num [stepSI, NUM_SAMPLES, List.set]
  have s15 : stepSI (([d1, d2, d3, d4, d5, d6, d7, d8, d9, d10, d11, d12, d13, d14, 0, 0] : List ℚ), 14) d15
      = ([d1, d2, d3, d4, d5, d6, d7, d8, d9, d10, d11, d12, d13, d14, d15, 0], 15) := by
    norm_num [stepSI, NUM_SAMPLES, List.set]
  have s16 : stepSI (([d1, d2, d3, d4, d5, d6, d7, d8, d9, d10, d11, d12, d13, d14, d15, 0] : List ℚ), 15) d16
      = ([d1, d2, d3, d4, d5, d6, d7, d8, d9, d10, d11, d12, d13, d14, d15, d16], 0) := by
    norm_num [stepSI, NUM_SAMPLES, List.set]
  have s17 : stepSI (([d1, d2, d3, d4, d5, d6, d7, d8, d9, d10, d11, d12, d13, d14, d15, d16] : List ℚ), 0) d17
      = ([d17, d2, d3, d4, d5, d6, d7, d8, d9, d10, d11, d12, d13, d14, d15, d16], 1) := by
    norm_num [stepSI, NUM_SAMPLES, List.set]
  have hs16 : (runWindow initWindow [d1, d2, d3, d4, d5, d6, d7, d8, d9, d10, d11, d12, d13, d14, d15, d16]).samples = [d1, d2, d3, d4, d5, d6, d7, d8, d9, d10, d11, d12, d13, d14, d15, d16] := by
    rw [(runWindow_toSI initWindow [d1, d2, d3, d4, d5, d6, d7, d8, d9, d10, d11, d12, d13, d14, d15, d16]).1, hInit]
    simp only [runSI, s1, s2, s3, s4, s5, s6, s7, s8, s9, s10, s11, s12, s13, s14, s15, s16]
  have hs17 : (runWindow initWindow [d1, d2, d3, d4, d5, d6, d7, d8, d9, d10, d11, d12, d13, d14, d15, d16, d17]).samples = [d17, d2, d3, d4, d5, d6, d7, d8, d9, d10, d11, d12, d13, d14, d15, d16] := by
    rw [(runWindow_toSI initWindow [d1, d2, d3, d4, d5, d6, d7, d8, d9, d10, d11, d12, d13, d14, d15, d16, d17]).1, hInit]
    simp only [runSI, s1, s2, s3, s4, s5, s6, s7, s8, s9, s10, s11, s12, s13, s14, s15, s16, s17]
  have hInv : ∀ l : List ℚ, WindowInv (runWindow initWindow l) :=
    fun l => windowInv_run l initWindow windowInv_init
  refine ⟨(hInv ds).2.2, ?_, ?_, hs17, ?_⟩
  · unfold average_uSv
    rw [(hInv ds).2.2]
    norm_num [NUM_SAMPLES]
  · unfold average_uSv
    rw [(hInv [d1, d2, d3, d4, d5, d6, d7, d8, d9, d10, d11, d12, d13, d14, d15, d16]).2.2, hs16]
    norm_num [NUM_SAMPLES]
    ring
  · unfold average_uSv
    rw [(hInv [d1, d2, d3, d4, d5, d6, d7, d8, d9, d10, d11, d12, d13, d14, d15, d16, d17]).2.2, hs17]
    norm_num [NUM_SAMPLES]
    ring

/-- C9: after every logging cycle the sample-window write index stays in
0..15 (it is advanced modulo 16) and the samples array keeps exactly 16
slots, so every read and write at the index is within bounds. -/
theorem claim_C9_sampleIndex (ds : List ℚ) (w : SampleWindow) (d : ℚ) :
    (runWindow initWindow ds).sampleIndex < NUM_SAMPLES
    ∧ (runWindow initWindow ds).samples.length = NUM_SAMPLES
    ∧ (insertSample w d).sampleIndex = (w.sampleIndex + 1) % NUM_SAMPLES := by
  have h := windowInv_run ds initWindow windowInv_init
  exact ⟨h.2.1, h.1, rfl⟩

theorem digitChar_not_pipe (n : Nat) : Nat.digitChar n ≠ '|' := by
  by_cases h : n < 16
  · interval_cases n <;> decide
  · unfold Nat.digitChar
    repeat rw [if_neg (by omega : ¬ _ = _)]
    decide

theorem toDigitsCore_not_pipe (b fuel : Nat) : ∀ (n : Nat) (acc : List Char),
    (∀ c ∈ acc, c ≠ '|') → ∀ c ∈ Nat.toDigitsCore b fuel n acc, c ≠ '|' := by
  induction fuel with
  | zero => intro n acc hacc; simpa [Nat.toDigitsCore] using hacc
  | succ fuel ih =>
    intro n acc hacc c hc
    simp only [Nat.toDigitsCore] at hc
    by_cases h : n / b = 0
    · rw [if_pos h] at hc
      rcases List.mem_cons.mp hc with h1 | h2
      · exact h1 ▸ digitChar_not_pipe _
      · exact hacc c h2
    · rw [if_neg h] at hc
      refine ih (n / b) (Nat.digitChar (n % b) :: acc) ?_ c hc
      intro c' hc'
      rcases List.mem_cons.mp hc' with h1 | h2
      · exact h1 ▸ digitChar_not_pipe _
      · exact hacc c' h2

theorem repr_not_pipe (n : Nat) : ∀ c ∈ (Nat.repr n).data, c ≠ '|' := by
  intro c hc
  have h : (Nat.repr n).data = Nat.toDigitsCore 10 (n + 1) n [] := by
    simp [Nat.repr, Nat.toDigits, List.asString]
  rw [h] at hc
  exact toDigitsCore_not_pipe 10 (n + 1) n [] (by simp) c hc

/-- Number of `|` characters in a string. A pipe-delimited line with
`pipeCount s` pipes carries `pipeCount s + 1` logical fields, provided no
individual field contains a pipe itself. -/
def pipeCount (s : String) : Nat := s.data.count '|'

theorem pipeCount_append (s t : String) : pipeCount (s ++ t) = pipeCount s + pipeCount t := by
  simp [pipeCount, String.data_append]

theorem pipeCount_repr (n : Nat) : pipeCount (Nat.repr n) = 0 := by
  rw [pipeCount, List.count_eq_zero]
  intro h
  exact repr_not_pipe n '|' h rfl

theorem pipeCount_intRepr (i : ℤ) : pipeCount (Int.repr i) = 0 := by
  cases i with
  | ofNat m => simpa [Int.repr] using pipeCount_repr m
  | negSucc m =>
    have h : Int.repr (Int.negSucc m) = "-" ++ Nat.repr (m + 1) := rfl
    rw [h, pipeCount_append, pipeCount_repr]
    decide

/-- Left-pad the decimal digits of a string with zeros to a given width
(used for the fixed-width fractional part of `String(float, n)` and for the
spec-side two-digit zero-padded fields). -/
def padZeros (width : Nat) (s : String) : String :=
  String.mk (List.leftpad width '0' s.data)

theorem pipeCount_padZeros (w : Nat) (s : String) (h : pipeCount s = 0) :
    pipeCount (padZeros w s) = 0 := by
  unfold pipeCount at h
  show (List.leftpad w '0' s.data).count '|' = 0
  rw [List.leftpad, List.count_append]
  simp [List.count_replicate, h]

/-- Model of Arduino `String(x, digits)` for a nonnegative `x`: scale by
`10 ^ digits`, round to the nearest integer, and print integer part, a
decimal point, and exactly `digits` fractional digits. -/
def fmtQNonneg (x : ℚ) (digits : Nat) : String :=
  let scaled := (round (x * (10 : ℚ) ^ digits)).toNat
  Nat.repr (scaled / 10 ^ digits) ++ "." ++ padZeros digits (Nat.repr (scaled % 10 ^ digits))

/-- Model of Arduino `String(x, digits)` (dtostrf): sign, then the
nonnegative rendering of `|x|`. -/
def fmtQ (x : ℚ) (digits : Nat) : String :=
  if x < 0 then "-" ++ fmtQNonneg (-x) digits else fmtQNonneg x digits

theorem pipeCount_fmtQNonneg (x : ℚ) (d : Nat) : pipeCount (fmtQNonneg x d) = 0 := by
  have hdot : pipeCount "." = 0 := by decide
  have hpad := pipeCount_padZeros d (Nat.repr ((round (x * (10 : ℚ) ^ d)).toNat % 10 ^ d))
    (pipeCount_repr _)
  show pipeCount (Nat.repr _ ++ "." ++ padZeros _ _) = 0
  rw [pipeCount_append, pipeCount_append, pipeCount_repr, hdot, hpad]

theorem pipeCount_fmtQ (x : ℚ) (d : Nat) : pipeCount (fmtQ x d) = 0 := by
  unfold fmtQ
  split_ifs
  · rw [pipeCount_append, pipeCount_fmtQNonneg]
    decide
  · exact pipeCount_fmtQNonneg x d

/-- Arduino's `round` macro, `(x)>=0?(long)((x)+0.5):(long)((x)-0.5)`:
add or subtract one half, then truncate toward zero. -/
def arduinoRound (q : ℚ) : ℤ := if 0 ≤ q then ⌊q + 1 / 2⌋ else ⌈q - 1 / 2⌉

theorem arduinoRound_natCast (n : Nat) : arduinoRound (n : ℚ) = n := by
  unfold arduinoRound
  rw [if_pos (by positivity)]
  rw [show ((n : ℚ) + 1 / 2) = ((n : ℤ) : ℚ) + 1 / 2 from by push_cast; ring]
  rw [Int.floor_int_add]
  norm_num

/-- The C `(int)` cast on a real value: truncation toward zero. -/
def cppTruncToInt (q : ℚ) : ℤ := if 0 ≤ q then ⌊q⌋ else ⌈q⌉

/-- Profile A accuracy value: `round(gps.hdop.value() * 3 / 100)`.
`gps.hdop.value()` is the raw HDOP as a C 32-bit unsigned integer, so
`* 3 / 100` is unsigned integer arithmetic (wrapping product, truncating
division); the `round` macro is applied to the already-divided integral
value. -/
def dokladnoscA (hdopRaw : Nat) : ℤ :=
  arduinoRound ((hdopRaw * 3 % UINT32_MOD / 100 : Nat) : ℚ)

/-- Profile B accuracy value: `(int)(gps.hdop.value() * 3 / 100)` — the same
unsigned integer arithmetic, with an `(int)` cast instead of `round`. -/
def dokladnoscB (hdopRaw : Nat) : Nat := hdopRaw * 3 % UINT32_MOD / 100

/-- The most recently decoded GPS state (TinyGPS++ `gps` object), one
validity flag per sub-field as the source queries them. Date/time
components are the integers TinyGPS++ returns (`year()` is the full
four-digit year); position/altitude are modelled as `ℚ`; `hdopValue` is the
raw integral HDOP in hundredths. -/
structure GpsFix where
  dateValid : Bool
  day : Nat
  month : Nat
  year : Nat
  timeValid : Bool
  hour : Nat
  minute : Nat
  second : Nat
  locationValid : Bool
  lat : ℚ
  lng : ℚ
  altitudeValid : Bool
  altitudeMeters : ℚ
  satellitesValid : Bool
  satellitesValue : Nat
  hdopValid : Bool
  hdopValue : Nat

/-- Profile A date field: unpadded `D.M.YYYY` plus literal `r.`;
fallback `00.00.0000r.`. -/
def dataFieldA (g : GpsFix) : String :=
  if g.dateValid then
    Nat.repr g.day ++ "." ++ Nat.repr g.month ++ "." ++ Nat.repr g.year ++ "r."
  else "00.00.0000r."

/-- Profile A time field: hour unpadded, minute/second conditionally
zero-padded; fallback `00:00:00`. -/
def czasFieldA (g : GpsFix) : String :=
  if g.timeValid then
    Nat.repr g.hour ++ ":" ++ (if g.minute < 10 then "0" else "") ++ Nat.repr g.minute
      ++ ":" ++ (if g.second < 10 then "0" else "") ++ Nat.repr g.second
  else "00:00:00"

/-- Profile A combined position field `lat|lng`, 6 decimals each;
fallback `0.000000|0.000000`. -/
def wspolrzedneFieldA (g : GpsFix) : String :=
  if g.locationValid then fmtQ g.lat 6 ++ "|" ++ fmtQ g.lng 6
  else "0.000000|0.000000"

/-- Profile A altitude field: meters with 2 decimals; fallback `0.00`. -/
def wysokoscFieldA (g : GpsFix) : String :=
  if g.altitudeValid then fmtQ g.altitudeMeters 2 else "0.00"

/-- Satellite-count field (identical in both profiles); fallback `0`. -/
def satelityField (g : GpsFix) : String :=
  if g.satellitesValid then Nat.repr g.satellitesValue else "0"

/-- Profile A HDOP field: raw value / 100 with 2 decimals; fallback `0.00`. -/
def hdopFieldA (g : GpsFix) : String :=
  if g.hdopValid then fmtQ ((g.hdopValue : ℚ) / 100) 2 else "0.00"

/-- Profile A accuracy field; fallback `0`. -/
def dokladnoscFieldA (g : GpsFix) : String :=
  if g.hdopValid then Int.repr (dokladnoscA g.hdopValue) else "0"

/-- The Profile A record line `dane` as concatenated by the source
(eight `|` separators; the position token internally holds one more `|`). -/
def frameA (g : GpsFix) (uSv avg : ℚ) : String :=
  dataFieldA g ++ "|" ++ czasFieldA g ++ "|" ++ wspolrzedneFieldA g ++ "|"
    ++ wysokoscFieldA g ++ "|" ++ satelityField g ++ "|" ++ hdopFieldA g ++ "|"
    ++ dokladnoscFieldA g ++ "|" ++ fmtQ uSv 2 ++ "|" ++ fmtQ avg 2

/-- Profile B date field: zero-padded day and month, two-digit year taken
as `String(year).substring(2)` (modelled as dropping the first two
characters), no suffix; fallback `00.00.00`. -/
def dataFieldB (g : GpsFix) : String :=
  if g.dateValid then
    (if g.day < 10 then "0" else "") ++ Nat.repr g.day ++ "."
      ++ (if g.month < 10 then "0" else "") ++ Nat.repr g.month ++ "."
      ++ String.mk ((Nat.repr g.year).data.drop 2)
  else "00.00.00"

/-- Profile B time field: hour, minute and second each conditionally
zero-padded; fallback `00:00:00`. -/
def czasFieldB (g : GpsFix) : String :=
  if g.timeValid then
    (if g.hour < 10 then "0" else "") ++ Nat.repr g.hour ++ ":"
      ++ (if g.minute < 10 then "0" else "") ++ Nat.repr g.minute ++ ":"
      ++ (if g.second < 10 then "0" else "") ++ Nat.repr g.second
  else "00:00:00"

/-- Profile B latitude field, 6 decimals; fallback `00.000000`. -/
def latitudeFieldB (g : GpsFix) : String :=
  if g.locationValid then fmtQ g.lat 6 else "00.000000"

/-- Profile B longitude field, 6 decimals; fallback `00.000000`. -/
def longitudeFieldB (g : GpsFix) : String :=
  if g.locationValid then fmtQ g.lng 6 else "00.000000"

/-- Profile B altitude field: `String((int)gps.altitude.meters())`;
fallback `0`. -/
def wysokoscFieldB (g : GpsFix) : String :=
  if g.altitudeValid then Int.repr (cppTruncToInt g.altitudeMeters) else "0"

/-- Profile B HDOP field: raw value / 100 with 1 decimal; fallback `0`. -/
def hdopFieldB (g : GpsFix) : String :=
  if g.hdopValid then fmtQ ((g.hdopValue : ℚ) / 100) 1 else "0"

/-- Profile B accuracy field; fallback `0`. -/
def dokladnoscFieldB (g : GpsFix) : String :=
  if g.hdopValid then Nat.repr (dokladnoscB g.hdopValue) else "0"

/-- The Profile B record line as printed by the nine `Serial.print("|")`
separated `Serial.print` calls ending in `Serial.println`. -/
def frameB (g : GpsFix) (uSv avg : ℚ) : String :=
  dataFieldB g ++ "|" ++ czasFieldB g ++ "|" ++ latitudeFieldB g ++ "|"
    ++ longitudeFieldB g ++ "|" ++ wysokoscFieldB g ++ "|" ++ satelityField g ++ "|"
    ++ hdopFieldB g ++ "|" ++ dokladnoscFieldB g ++ "|" ++ fmtQ uSv 2 ++ "|" ++ fmtQ avg 2

/-- A GPS state in which no sub-field is valid (the power-on state before
any fix). -/
def noFix : GpsFix :=
  { dateValid := false, day := 0, month := 0, year := 0,
    timeValid := false, hour := 0, minute := 0, second := 0,
    locationValid := false, lat := 0, lng := 0,
    altitudeValid := false, altitudeMeters := 0,
    satellitesValid := false, satellitesValue := 0,
    hdopValid := false, hdopValue := 0 }

/-- A GPS state with the spec's example date 24.11.2025 and time 14:30:25. -/
def fix2411 : GpsFix :=
  { dateValid := true, day := 24, month := 11, year := 2025,
    timeValid := true, hour := 14, minute := 30, second := 25,
    locationValid := false, lat := 0, lng := 0,
    altitudeValid := false, altitudeMeters := 0,
    satellitesValid := false, satellitesValue := 0,
    hdopValid := false, hdopValue := 0 }

/-- Spec-side two-digit zero-padded decimal rendering (`DD`, `MM`, `HH`,
`MM`, `SS`, two-digit year): the decimal digits left-padded to width 2. -/
def pad2 (n : Nat) : String := padZeros 2 (Nat.repr n)

theorem pad2_lt_ten : ∀ m, m < 10 → pad2 m = "0" ++ Nat.repr m := by decide

theorem pad2_ge_ten : ∀ m, m < 100 → 10 ≤ m → pad2 m = Nat.repr m := by decide

theorem year_drop_two : ∀ c, c < 100 →
    String.mk ((Nat.repr (2000 + c)).data.drop 2) = pad2 c := by decide

theorem condPad_eq_pad2 (n : Nat) (h : n < 100) :
    (if n < 10 then "0" else "") ++ Nat.repr n = pad2 n := by
  by_cases h10 : n < 10
  · rw [if_pos h10, pad2_lt_ten n h10]
  · rw [if_neg h10, pad2_ge_ten n h (by omega)]
    simp

/-- Both profiles in fact truncate the accuracy value (the `round` in
Profile A acts on an integer that C integer division already truncated). -/
theorem dokladnoscA_eq_dokladnoscB (h : Nat) :
    dokladnoscA h = (dokladnoscB h : ℤ) := by
  unfold dokladnoscA dokladnoscB
  exact arduinoRound_natCast _

/-- C1: evaluation at the claim's example input. Because `gps.hdop.value()`
is a C unsigned integer, `gps.hdop.value() * 3 / 100` is integer arithmetic:
the division truncates BEFORE Profile A's `round` macro is applied, so raw
HDOP 125 yields accuracy 3 in Profile A (not the claimed 4), exactly as in
Profile B; the claim's real-valued formula `round(125 × 3 / 100)` would
give 4. -/
theorem claim_C1_accuracy :
    dokladnoscA 125 = 3
    ∧ dokladnoscB 125 = 3
    ∧ round ((125 * 3 : ℚ) / 100) = 4 := by
  refine ⟨?_, ?_, ?_⟩
  · have h3 : (125 * 3 % UINT32_MOD / 100 : Nat) = 3 := by norm_num [UINT32_MOD]
    unfold dokladnoscA
    rw [h3]
    exact_mod_cast arduinoRound_natCast 3
  · norm_num [dokladnoscB, UINT32_MOD]
  · rw [round_eq]
    norm_num

/-- Everything the firmware ever writes on the operator serial channel:
either the fixed diagnostic or a data-record line. -/
inductive SerialOut where
  | diag : String → SerialOut
  | record : String → SerialOut

/-- `Serial.println(F("EROR OLED STOP"))` — the diagnostic emitted when
`display.begin(...)` fails. -/
def OLED_ERROR_MSG : String := "EROR OLED STOP"

/-- Serial output of a whole run of the firmware, as a function of whether
`display.begin` succeeds in `setup()`: on success `loop()` runs and emits
one record line per logging cycle; on failure `setup()` prints the single
diagnostic and enters `for(;;);`, so `loop()` never runs and nothing
further is ever emitted. -/
def systemSerialOutput (displayInitOk : Bool) (loopRecords : List String) :
    List SerialOut :=
  if displayInitOk then loopRecords.map SerialOut.record
  else [SerialOut.diag OLED_ERROR_MSG]

/-- C6: when display initialisation fails, the firmware emits exactly one
fixed diagnostic message and halts permanently: whatever records the loop
would have produced, the serial output is the one-element diagnostic list
and contains no data record. -/
theorem claim_C6_displayFailure (loopRecords : List String) :
    systemSerialOutput false loopRecords = [SerialOut.diag OLED_ERROR_MSG]
    ∧ ∀ s, SerialOut.record s ∉ systemSerialOutput false loopRecords := by
  constructor
  · simp [systemSerialOutput]
  · intro s hs
    simp [systemSerialOutput] at hs

/-- C5: with no valid GPS sub-field the record is still fully formed: every
date/time/position field equals its documented fallback literal in both
profiles, and each emitted line still carries exactly ten pipe-delimited
logical fields (nine `|` characters, since neither dose rendering can
contain a pipe). -/
theorem claim_C5_fallbackRecord (g : GpsFix) (uSv avg : ℚ)
    (h1 : g.dateValid = false) (h2 : g.timeValid = false)
    (h3 : g.locationValid = false) (h4 : g.altitudeValid = false)
    (h5 : g.satellitesValid = false) (h6 : g.hdopValid = false) :
    dataFieldA g = "00.00.0000r."
    ∧ czasFieldA g = "00:00:00"
    ∧ wspolrzedneFieldA g = "0.000000|0.000000"
    ∧ dataFieldB g = "00.00.00"
    ∧ czasFieldB g = "00:00:00"
    ∧ latitudeFieldB g = "00.000000"
    ∧ longitudeFieldB g = "00.000000"
    ∧ pipeCount (frameA g uSv avg) + 1 = 10
    ∧ pipeCount (frameB g uSv avg) + 1 = 10 := by
  have f1 : dataFieldA g = "00.00.0000r." := by simp [dataFieldA, h1]
  have f2 : czasFieldA g = "00:00:00" := by simp [czasFieldA, h2]
  have f3 : wspolrzedneFieldA g = "0.000000|0.000000" := by simp [wspolrzedneFieldA, h3]
  have f4 : wysokoscFieldA g = "0.00" := by simp [wysokoscFieldA, h4]
  have f5 : satelityField g = "0" := by simp [satelityField, h5]
  have f6 : hdopFieldA g = "0.00" := by simp [hdopFieldA, h6]
  have f7 : dokladnoscFieldA g = "0" := by simp [dokladnoscFieldA, h6]
  have g1 : dataFieldB g = "00.00.00" := by simp [dataFieldB, h1]
  have g2 : czasFieldB g = "00:00:00" := by simp [czasFieldB, h2]
  have g3 : latitudeFieldB g = "00.000000" := by simp [latitudeFieldB, h3]
  have g4 : longitudeFieldB g = "00.000000" := by simp [longitudeFieldB, h3]
  have g5 : wysokoscFieldB g = "0" := by simp [wysokoscFieldB, h4]
  have g6 : hdopFieldB g = "0" := by simp [hdopFieldB, h6]
  have g7 : dokladnoscFieldB g = "0" := by simp [dokladnoscFieldB, h6]
  refine ⟨f1, f2, f3, g1, g2, g3, g4, ?_, ?_⟩
  · unfold frameA
    rw [f1, f2, f3, f4, f5, f6, f7]
    simp only [pipeCount_append, pipeCount_fmtQ]
    decide
  · unfold frameB
    rw [g1, g2, g3, g4, g5, f5, g6, g7]
    simp only [pipeCount_append, pipeCount_fmtQ]
    decide

/-- C5 witness: the power-on GPS state with zero doses. -/
theorem claim_C5_fallbackRecord_witness :
    dataFieldA noFix = "00.00.0000r."
    ∧ pipeCount (frameA noFix 0 0) + 1 = 10
    ∧ pipeCount (frameB noFix 0 0) + 1 = 10 := by
  have h := claim_C5_fallbackRecord noFix 0 0 rfl rfl rfl rfl rfl rfl
  exact ⟨h.1, h.2.2.2.2.2.2.2.1, h.2.2.2.2.2.2.2.2⟩

/-- C8: for any valid date/time in range, Profile A renders the date as
unpadded `D.M.YYYY` with literal suffix `r.` and the time as `H:MM:SS`
(hour unpadded, minute/second zero-padded to two digits), while Profile B
renders the date as zero-padded `DD.MM.YY` (two-digit year, no suffix) and
the time fully zero-padded `HH:MM:SS`. -/
theorem claim_C8_dateTimeFormat (g : GpsFix)
    (hd : g.dateValid = true) (ht : g.timeValid = true)
    (hday : g.day ≤ 31) (hmon : g.month ≤ 12)
    (hy1 : 2000 ≤ g.year) (hy2 : g.year ≤ 2099)
    (hhr : g.hour < 24) (hmin : g.minute < 60) (hsec : g.second < 60) :
    dataFieldA g
      = Nat.repr g.day ++ "." ++ Nat.repr g.month ++ "." ++ Nat.repr g.year ++ "r."
    ∧ czasFieldA g = Nat.repr g.hour ++ ":" ++ pad2 g.minute ++ ":" ++ pad2 g.second
    ∧ dataFieldB g = pad2 g.day ++ "." ++ pad2 g.month ++ "." ++ pad2 (g.year % 100)
    ∧ czasFieldB g = pad2 g.hour ++ ":" ++ pad2 g.minute ++ ":" ++ pad2 g.second := by
  refine ⟨?_, ?_, ?_, ?_⟩
  · simp [dataFieldA, hd]
  · unfold czasFieldA
    rw [if_pos ht, ← condPad_eq_pad2 g.minute (by omega),
      ← condPad_eq_pad2 g.second (by omega)]
    simp [String.append_assoc]
  · unfold dataFieldB
    rw [if_pos hd]
    obtain ⟨c, hc, hy⟩ : ∃ c, c < 100 ∧ g.year = 2000 + c :=
      ⟨g.year - 2000, by omega, by omega⟩
    rw [hy, year_drop_two c hc, show (2000 + c) % 100 = c from by omega,
      ← condPad_eq_pad2 g.day (by omega), ← condPad_eq_pad2 g.month (by omega)]
    simp [String.append_assoc]
  · unfold czasFieldB
    rw [if_pos ht, ← condPad_eq_pad2 g.hour (by omega),
      ← condPad_eq_pad2 g.minute (by omega), ← condPad_eq_pad2 g.second (by omega)]
    simp [String.append_assoc]

/-- C8 witness: the spec's example date/time 24.11.2025, 14:30:25. -/
theorem claim_C8_dateTimeFormat_witness :
    dataFieldA fix2411 = "24.11.2025r."
    ∧ czasFieldA fix2411 = "14:30:25"
    ∧ dataFieldB fix2411 = "24.11.25"
    ∧ czasFieldB fix2411 = "14:30:25" := by
  have h := claim_C8_dateTimeFormat fix2411 rfl rfl (by norm_num [fix2411])
    (by norm_num [fix2411]) (by norm_num [fix2411]) (by norm_num [fix2411])
    (by norm_num [fix2411]) (by norm_num [fix2411]) (by norm_num [fix2411])
  refine ⟨?_, ?_, ?_, ?_⟩
  · rw [h.1]; decide
  · rw [h.2.1]; decide
  · rw [h.2.2.1]; decide
  · rw [h.2.2.2]; decide

end Geiger
